import Mathlib

/-!
Verification development for `GetOpenAIQuota.py`, a script that fetches
paginated cost data from a billing API, accumulates a running total together
with the list of individual result records, prints a report, and writes two
badge-style JSON summary files.

The Python script is shallowly embedded: JSON values become an inductive
`Json` type, Python truthiness becomes `truthy`, the mutable accumulator
becomes explicit state passing, console output becomes a `List Output` of
print events, the HTTP layer becomes an abstract per-call outcome
(`HttpResult`), and an uncaught Python exception becomes the `PyResult.raises`
constructor.  Numbers are modelled as exact rationals: the script only adds
amounts and formats them to six decimal places, and the float/rational gap is
below that rendering for the concrete inputs the claims use.
-/

/-- A JSON value, as produced by `response.json()` in the script. -/
inductive Json where
  | null
  | bool (b : Bool)
  | num (q : ℚ)
  | str (s : String)
  | arr (elems : List Json)
  | obj (fields : List (String × Json))

/-- Python truthiness (`if x:`) of a JSON value: `None`, `False`, `0`, `""`,
`[]` and `\x7b\x7d` are falsy, everything else is truthy. -/
def truthy : Json → Bool
  | .null => false
  | .bool b => b
  | .num q => decide (q ≠ 0)
  | .str s => s ≠ ""
  | .arr elems => !elems.isEmpty
  | .obj fields => !fields.isEmpty

/-- Python `key in d` on a dict.  The script only applies it to parsed API
responses, which are JSON objects; on a non-object it is `false` here (in
Python a non-dict operand would behave differently, but no claim reaches
that case). -/
def hasKey (j : Json) (k : String) : Bool :=
  match j with
  | .obj fields => fields.any (fun f => f.1 = k)
  | _ => false

/-- Python `d.get(key, default)` on a dict (first binding wins, as in a dict
with unique keys).  On a non-object the default is returned; the script only
calls it on objects. -/
def Json.getD (j : Json) (k : String) (d : Json) : Json :=
  match j with
  | .obj fields =>
    match fields.find? (fun f => f.1 = k) with
    | some f => f.2
    | none => d
  | _ => d

/-- Iterating a JSON value with `for x in v`: the script iterates the `data`
and `results` arrays.  Non-arrays yield nothing (Python would raise on a
non-iterable; no claim reaches that case). -/
def asArr : Json → List Json
  | .arr elems => elems
  | _ => []

/-- Numeric reading used by `total_cost += amount`: the value fetched from
`amount.value`, or the default `0`.  A present non-numeric value would raise
a `TypeError` in Python; no claim reaches that case. -/
def asNum : Json → ℚ
  | .num q => q
  | _ => 0

/-- Python `f"\x7bv\x7d"` string conversion for the atoms the script can
interpolate into the URL; container reprs are not modelled (no claim uses a
non-atomic pagination cursor). -/
def pyStr : Json → String
  | .null => "None"
  | .bool true => "True"
  | .bool false => "False"
  | .num q => toString q
  | .str s => s
  | .arr _ => "<list>"
  | .obj _ => "<dict>"

/-- The `total_usage` accumulator dict: running `total_cost` and the
append-only `entries` list of raw result records. -/
structure TotalUsage where
  total_cost : ℚ
  entries : List Json

/-- One console print event of the script, in order of emission.  Rendering
details that no claim depends on (timestamp formatting, the exact wording of
exception messages) are carried as payloads rather than formatted text. -/
inductive Output where
  | noValidData
  | timeRange (startTime endTime : Json)
  | costLine (result : Json)
  | moreData
  | fetchFailed
  | httpErrorLine (e : String)
  | responseContent (body : Json)
  | requestErrorLine (e : String)
  | summaryHeader
  | summaryCost (formatted : String)
  | summaryEntries (n : Nat)
  | filesCreated
  | guidance
  | querying

/-- `result.get("amount", \x7b\x7d).get("value", 0)` — the amount added to
`total_cost` for one result record (line 71 of the script). -/
def result_amount (result : Json) : ℚ :=
  asNum ((result.getD "amount" (.obj [])).getD "value" (.num 0))

/-- The two accumulation statements of the inner loop (lines 72–73):
add the amount to `total_cost`, append the raw result to `entries`. -/
def process_result (tu : TotalUsage) (result : Json) : TotalUsage :=
  { total_cost := tu.total_cost + result_amount result
    entries := tu.entries ++ [result] }

/-- The `for result in results` loop (lines 68–73): print each cost line and
accumulate. -/
def process_results : TotalUsage → List Json → TotalUsage × List Output
  | tu, [] => (tu, [])
  | tu, r :: rs =>
    let tu2 := process_result tu r
    let rec2 := process_results tu2 rs
    (rec2.1, .costLine r :: rec2.2)

/-- One iteration of the `for bucket in cost_info.get("data", [])` loop
(lines 61–73): read the bucket's time range and `results`; when `results` is
non-empty, print the time range and process each result. -/
def process_bucket (tu : TotalUsage) (bucket : Json) : TotalUsage × List Output :=
  let results := asArr (bucket.getD "results" (.arr []))
  if results.isEmpty then (tu, [])
  else
    let rec2 := process_results tu results
    (rec2.1,
      .timeRange (bucket.getD "start_time" (.num 0)) (bucket.getD "end_time" (.num 0))
        :: rec2.2)

/-- The whole bucket loop. -/
def process_buckets : TotalUsage → List Json → TotalUsage × List Output
  | tu, [] => (tu, [])
  | tu, b :: bs =>
    let s1 := process_bucket tu b
    let s2 := process_buckets s1.1 bs
    (s2.1, s1.2 ++ s2.2)

/-- `process_and_display_cost_info(cost_info, total_usage)` (lines 49–76).
`cost_info` is the requester's return value: `none` models Python `None`.
Returns the updated accumulator and the print events.  Mirrors the source:
the guard `if not cost_info or "data" not in cost_info` prints the
no-valid-data notice and accumulates nothing; otherwise every bucket is
processed and a trailing notice is printed when `has_more` is truthy. -/
def process_and_display_cost_info (cost_info : Option Json) (tu : TotalUsage) :
    TotalUsage × List Output :=
  match cost_info with
  | none => (tu, [.noValidData])
  | some ci =>
    if !truthy ci || !hasKey ci "data" then (tu, [.noValidData])
    else
      let s := process_buckets tu (asArr (ci.getD "data" (.arr [])))
      (s.1, s.2 ++ (if truthy (ci.getD "has_more" (.bool false)) then [.moreData] else []))

/-- The outcome of one `requests.get` call against the cost endpoint, as the
requester observes it:
* `success body` — a 2xx response; `body` is `some j` when the body parses as
  JSON and `none` when `response.json()` would raise a `JSONDecodeError`;
* `httpError e body` — a non-2xx response, on which `raise_for_status` raises
  an `HTTPError` with message `e`; `body` is `some j` when `e.response.json()`
  parses and `none` when it would raise a `JSONDecodeError`;
* `requestError e` — a transport-level `RequestException` with message `e`. -/
inductive HttpResult where
  | success (body : Option Json)
  | httpError (e : String) (body : Option Json)
  | requestError (e : String)

/-- The observable result of running a Python function: it either returns a
value having printed some lines, or lets an exception escape uncaught (the
lines printed before the raise are kept). -/
inductive PyResult (α : Type) where
  | returns (v : α) (out : List Output)
  | raises (exn : String) (out : List Output)

/-- The `cost_url` built on lines 29–31: the base query with `start_time`,
plus `&page=<cursor>` when the cursor is truthy.  The cursor is a `Json`
value because the loop stores whatever `cost_info.get("next_page")` returned
(`.null` models Python `None`). -/
def cost_url (start_time : Int) (next_page : Json) : String :=
  let base := "https://api.openai.com/v1/organization/costs?start_time=" ++ toString start_time
  if truthy next_page then base ++ "&page=" ++ pyStr next_page else base

/-- `get_openai_cost_and_usage(api_key, start_time, next_page)` (lines 11–47).
The network is abstracted by `resp`, the outcome of the single
`requests.get(cost_url, headers)` call this invocation performs.  Following
the source's `try`/`except` structure:
* 2xx with JSON body: return the parsed body;
* 2xx with non-JSON body: `response.json()` raises a `JSONDecodeError`,
  which is a `RequestException`, caught by the second handler → print and
  return `None`;
* non-2xx with JSON body: `raise_for_status` raises `HTTPError`, caught by
  the first handler → print the error and the parsed error body, return
  `None`;
* non-2xx with non-JSON body: inside the first handler, `e.response.json()`
  itself raises a `JSONDecodeError`; an exception raised inside an `except`
  block is not caught by the sibling handler, so it escapes uncaught (after
  the `HTTP Error:` line was already printed);
* transport failure: caught by the second handler → print and return `None`.
The `api_key` only feeds the authorization header and the URL is a function
of `start_time` and `next_page` alone, so neither influences the result
beyond being recorded by the caller. -/
def get_openai_cost_and_usage (api_key : String) (start_time : Int)
    (next_page : Json) (resp : HttpResult) : PyResult (Option Json) :=
  let _headers : List (String × String) :=
    [("Authorization", "Bearer " ++ api_key), ("Content-Type", "application/json")]
  let _url := cost_url start_time next_page
  match resp with
  | .success (some j) => .returns (some j) []
  | .success none => .returns none [.requestErrorLine "JSONDecodeError"]
  | .httpError e (some body) => .returns none [.httpErrorLine e, .responseContent body]
  | .httpError e none => .raises "JSONDecodeError" [.httpErrorLine e]
  | .requestError e => .returns none [.requestErrorLine e]

/-- How the `while True:` loop of `fetch_all_cost_data` ended. -/
inductive LoopOutcome where
  | done (tu : TotalUsage)
  | raised (exn : String)
  | outOfResponses

/-- The trace of one run of the pagination loop: how it ended, everything it
printed, and the URL of every request it issued, in order. -/
structure LoopResult where
  outcome : LoopOutcome
  output : List Output
  urls : List String

/-- The `while True:` loop of `fetch_all_cost_data` (lines 92–102), driven by
`responses`, the outcomes of the successive HTTP calls.  Each iteration calls
the requester with the current cursor; a truthy page is aggregated and, when
its `has_more` is truthy, the cursor becomes its `next_page` and the loop
continues; otherwise the loop breaks.  A falsy return (`None` from a failed
fetch, or a falsy JSON body) prints the failure notice and breaks.  An
uncaught exception from the requester aborts the whole program
(`LoopOutcome.raised`).  `LoopOutcome.outOfResponses` is a model artifact:
the supplied outcome list ran out while the loop still wanted to fetch. -/
def fetch_loop (api_key : String) (start_time : Int) :
    List HttpResult → Json → TotalUsage → LoopResult
  | [], _, _ => ⟨.outOfResponses, [], []⟩
  | resp :: rest, next_page, tu =>
    let url := cost_url start_time next_page
    match get_openai_cost_and_usage api_key start_time next_page resp with
    | .raises exn out1 => ⟨.raised exn, out1, [url]⟩
    | .returns cost_info out1 =>
      match cost_info with
      | some ci =>
        if truthy ci then
          let s := process_and_display_cost_info (some ci) tu
          if truthy (ci.getD "has_more" .null) then
            let r := fetch_loop api_key start_time rest (ci.getD "next_page" .null) s.1
            ⟨r.outcome, out1 ++ s.2 ++ r.output, url :: r.urls⟩
          else ⟨.done s.1, out1 ++ s.2, [url]⟩
        else ⟨.done tu, out1 ++ [.fetchFailed], [url]⟩
      | none => ⟨.done tu, out1 ++ [.fetchFailed], [url]⟩

/-- The content of one badge JSON file: the four fields written by
`json.dump`, in the order the script lists them. -/
structure Badge where
  schemaVersion : Nat
  label : String
  message : String
  color : String

/-- Python `f"\x7bx:.6f\x7d"` on the accumulated total, over the exact
rational model: sign, integer part, and exactly six fraction digits of the
rounded magnitude.  (CPython rounds the decimal expansion of the binary
double ties-to-even; on exact six-decimal inputs no tie arises and `round`
agrees.) -/
def fmt6 (q : ℚ) : String :=
  let n : ℕ := (round (|q| * 1000000) : ℤ).toNat
  let sign := if q < 0 then "-" else ""
  let fracStr := toString (n % 1000000)
  sign ++ toString (n / 1000000) ++ "." ++
    String.mk (List.replicate (6 - fracStr.length) '0') ++ fracStr

/-- The `TotalCost.json` payload (lines 110–116). -/
def total_cost_badge (tu : TotalUsage) : Badge :=
  ⟨1, "Total Cost for Last 30 Days", "$" ++ fmt6 tu.total_cost ++ " USD", "blue"⟩

/-- The `TotalEntry.json` payload (lines 118–124). -/
def total_entry_badge (tu : TotalUsage) : Badge :=
  ⟨1, "Total Entries for Last 30 Days", toString tu.entries.length, "yellow"⟩

/-- The observable behaviour of one program run: console output, the URLs
requested, the pair (TotalCost.json, TotalEntry.json) when the files were
written, and the uncaught exception when one escaped. -/
structure RunResult where
  output : List Output
  urls : List String
  files : Option (Badge × Badge)
  raised : Option String

/-- `fetch_all_cost_data(api_key, start_time)` (lines 78–126): run the
pagination loop from a `None` cursor and a zeroed accumulator; when the loop
breaks (normally or on a fetch failure) print the summary and write both
badge files; an uncaught exception skips both. -/
def fetch_all_cost_data (api_key : String) (start_time : Int)
    (responses : List HttpResult) : RunResult :=
  let r := fetch_loop api_key start_time responses .null ⟨0, []⟩
  match r.outcome with
  | .done tu =>
    ⟨r.output ++ [.summaryHeader, .summaryCost (fmt6 tu.total_cost),
        .summaryEntries tu.entries.length, .filesCreated],
      r.urls, some (total_cost_badge tu, total_entry_badge tu), none⟩
  | .raised exn => ⟨r.output, r.urls, none, some exn⟩
  | .outOfResponses => ⟨r.output, r.urls, none, none⟩

/-- The placeholder credential of line 130. -/
def placeholder_key : String := "your_openai_admin_key_here"

/-- The `__main__` block (lines 128–140).  `env_key` is
`os.getenv("OPENAI_ADMIN_API_KEY")` (`none` when unset); `or` substitutes the
placeholder for a falsy value (unset or empty).  A placeholder key prints the
guidance line and stops before any network call or file write; otherwise the
last-30-days window is computed from `current_time` and the fetch runs. -/
def main_program (env_key : Option String) (current_time : Int)
    (responses : List HttpResult) : RunResult :=
  let key := match env_key with
    | none => placeholder_key
    | some s => if s = "" then placeholder_key else s
  if key = placeholder_key then ⟨[.guidance], [], none, none⟩
  else
    let start_time := current_time - 30 * 24 * 60 * 60
    let r := fetch_all_cost_data key start_time responses
    ⟨.querying :: r.output, r.urls, r.files, r.raised⟩

/-! ## Derived notions used to state and prove the claims -/

/-- The sum of `amount.value` over a list of result records — the quantity
`total_cost` is meant to track. -/
def entries_sum (l : List Json) : ℚ := (l.map result_amount).sum

/-- All result records of a page, across all its buckets, in order. -/
def page_results (p : Json) : List Json :=
  (asArr (p.getD "data" (.arr []))).flatMap (fun b => asArr (b.getD "results" (.arr [])))

/-- The result records the aggregator actually accumulates from a requester
return value: none unless the value is a truthy object with a `data` key. -/
def observed_results : Option Json → List Json
  | none => []
  | some ci => if truthy ci && hasKey ci "data" then page_results ci else []

/-- Successive aggregation of a list of pages, as the pagination loop
performs it. -/
def run_pages : TotalUsage → List Json → TotalUsage
  | tu, [] => tu
  | tu, p :: ps => run_pages (process_and_display_cost_info (some p) tu).1 ps

/-- The pagination cursor after consuming a list of pages, starting from
cursor `c`: each page overwrites it with its own `next_page`. -/
def cursor_after : Json → List Json → Json
  | c, [] => c
  | _, p :: ps => cursor_after (p.getD "next_page" .null) ps

/-- A successful HTTP exchange delivering page `p`. -/
def page_resp (p : Json) : HttpResult := .success (some p)

/-- The requester return values the loop treats as the failure signal
(`if cost_info:` is false): `None` from a caught error, or a falsy JSON
body.  A non-2xx response with a non-JSON body is not a signal — it raises. -/
def fails_signal : HttpResult → Bool
  | .success none => true
  | .success (some j) => !truthy j
  | .httpError _ (some _) => true
  | .httpError _ none => false
  | .requestError _ => true

lemma getD_of_hasKey_eq_false {j : Json} {k : String} (h : hasKey j k = false)
    (d : Json) : j.getD k d = d := by
  cases j with
  | obj fields =>
    simp only [hasKey, List.any_eq_false] at h
    simp only [Json.getD]
    rw [List.find?_eq_none.mpr]
    intro x hx
    simpa using h x hx
  | null => rfl
  | bool b => rfl
  | num q => rfl
  | str s => rfl
  | arr elems => rfl

lemma process_results_fst (rs : List Json) : ∀ tu : TotalUsage,
    (process_results tu rs).1 = ⟨tu.total_cost + entries_sum rs, tu.entries ++ rs⟩ := by
  induction rs with
  | nil => intro tu; simp [process_results, entries_sum]
  | cons r t ih =>
    intro tu
    simp only [process_results, ih, process_result, entries_sum, List.map_cons, List.sum_cons]
    simp only [TotalUsage.mk.injEq]
    exact ⟨by ring, by simp⟩

lemma process_bucket_fst (tu : TotalUsage) (b : Json) :
    (process_bucket tu b).1 =
      ⟨tu.total_cost + entries_sum (asArr (b.getD "results" (.arr []))),
        tu.entries ++ asArr (b.getD "results" (.arr []))⟩ := by
  simp only [process_bucket]
  by_cases h : (asArr (b.getD "results" (.arr []))).isEmpty
  · rw [List.isEmpty_iff] at h
    simp [h, entries_sum]
  · simp only [h, if_false, Bool.false_eq_true]
    exact process_results_fst _ tu

lemma process_buckets_fst (bs : List Json) : ∀ tu : TotalUsage,
    (process_buckets tu bs).1 =
      ⟨tu.total_cost + entries_sum (bs.flatMap (fun b => asArr (b.getD "results" (.arr [])))),
        tu.entries ++ bs.flatMap (fun b => asArr (b.getD "results" (.arr [])))⟩ := by
  induction bs with
  | nil => intro tu; simp [process_buckets, entries_sum]
  | cons b t ih =>
    intro tu
    simp only [process_buckets, ih, process_bucket_fst, List.flatMap_cons, entries_sum,
      List.map_append, List.sum_append]
    simp only [TotalUsage.mk.injEq]
    exact ⟨by ring, by simp⟩

/-- The accumulator after one aggregator call: the observed results are
appended and their amounts added, whatever the input page was. -/
lemma process_fst (ci : Option Json) (tu : TotalUsage) :
    (process_and_display_cost_info ci tu).1 =
      ⟨tu.total_cost + entries_sum (observed_results ci),
        tu.entries ++ observed_results ci⟩ := by
  match ci with
  | none => simp [process_and_display_cost_info, observed_results, entries_sum]
  | some p =>
    simp only [process_and_display_cost_info, observed_results]
    by_cases h1 : truthy p
    · by_cases h2 : hasKey p "data"
      · simp only [h1, h2, Bool.not_true, Bool.false_or, Bool.and_self, if_true,
          Bool.false_eq_true, if_false]
        rw [process_buckets_fst]
        rfl
      · simp [h1, h2, entries_sum]
    · simp [h1, entries_sum]

lemma observed_results_of_truthy {p : Json} (h : truthy p = true) :
    observed_results (some p) = page_results p := by
  simp only [observed_results, h, Bool.true_and]
  by_cases h2 : hasKey p "data"
  · simp [h2]
  · simp only [Bool.not_eq_true] at h2
    simp [h2, page_results, getD_of_hasKey_eq_false h2, asArr]

lemma run_pages_spec (ps : List Json) : ∀ tu : TotalUsage,
    (∀ p ∈ ps, truthy p = true) →
    run_pages tu ps =
      ⟨tu.total_cost + entries_sum (ps.flatMap page_results),
        tu.entries ++ ps.flatMap page_results⟩ := by
  induction ps with
  | nil => intro tu _; simp [run_pages, entries_sum]
  | cons p t ih =>
    intro tu h
    simp only [run_pages]
    rw [ih _ (fun q hq => h q (List.mem_cons_of_mem _ hq)),
      process_fst, observed_results_of_truthy (h p (List.mem_cons_self _ _))]
    simp only [List.flatMap_cons, entries_sum, List.map_append, List.sum_append]
    simp only [TotalUsage.mk.injEq]
    exact ⟨by ring, by simp⟩

/-- Every iteration of the loop issues exactly one request, at the URL built
from the current cursor. -/
lemma fetch_loop_cons_urls (key : String) (st : Int) (resp : HttpResult)
    (rest : List HttpResult) (c : Json) (tu : TotalUsage) :
    ∃ tail, (fetch_loop key st (resp :: rest) c tu).urls = cost_url st c :: tail := by
  cases resp with
  | success body =>
    cases body with
    | none => exact ⟨[], rfl⟩
    | some j =>
      simp only [fetch_loop, get_openai_cost_and_usage]
      by_cases h1 : truthy j
      · simp only [h1, if_true]
        by_cases h2 : truthy (j.getD "has_more" .null)
        · simp only [h2, if_true]
          exact ⟨_, rfl⟩
        · simp only [h2, Bool.false_eq_true, if_false]
          exact ⟨[], rfl⟩
      · simp only [h1, Bool.false_eq_true, if_false]
        exact ⟨[], rfl⟩
  | httpError e body =>
    cases body with
    | none => exact ⟨[], rfl⟩
    | some b => exact ⟨[], rfl⟩
  | requestError e => exact ⟨[], rfl⟩

/-- Loop step on a truthy page whose `has_more` is truthy: aggregate, move
the cursor to the page's `next_page`, and continue with the rest. -/
lemma fetch_loop_good_step (key : String) (st : Int) (p : Json)
    (rest : List HttpResult) (c : Json) (tu : TotalUsage)
    (hp : truthy p = true) (hm : truthy (p.getD "has_more" .null) = true) :
    fetch_loop key st (page_resp p :: rest) c tu =
      ⟨(fetch_loop key st rest (p.getD "next_page" .null)
          (process_and_display_cost_info (some p) tu).1).outcome,
        (process_and_display_cost_info (some p) tu).2 ++
          (fetch_loop key st rest (p.getD "next_page" .null)
            (process_and_display_cost_info (some p) tu).1).output,
        cost_url st c ::
          (fetch_loop key st rest (p.getD "next_page" .null)
            (process_and_display_cost_info (some p) tu).1).urls⟩ := by
  simp [page_resp, fetch_loop, get_openai_cost_and_usage, hp, hm]

/-- Loop step on a truthy page whose `has_more` is falsy: aggregate and
break out of the loop. -/
lemma fetch_loop_last_step (key : String) (st : Int) (p : Json)
    (rest : List HttpResult) (c : Json) (tu : TotalUsage)
    (hp : truthy p = true) (hm : truthy (p.getD "has_more" .null) = false) :
    fetch_loop key st (page_resp p :: rest) c tu =
      ⟨.done (process_and_display_cost_info (some p) tu).1,
        (process_and_display_cost_info (some p) tu).2,
        [cost_url st c]⟩ := by
  simp [page_resp, fetch_loop, get_openai_cost_and_usage, hp, hm]

/-- Loop step on the failure signal: print the notice and break, keeping the
accumulator as it was and fetching nothing further. -/
lemma fetch_loop_fail_step (key : String) (st : Int) (resp : HttpResult)
    (rest : List HttpResult) (c : Json) (tu : TotalUsage)
    (h : fails_signal resp = true) :
    ∃ out1, fetch_loop key st (resp :: rest) c tu =
      ⟨.done tu, out1 ++ [.fetchFailed], [cost_url st c]⟩ := by
  cases resp with
  | success body =>
    cases body with
    | none => exact ⟨[.requestErrorLine "JSONDecodeError"], rfl⟩
    | some j =>
      simp only [fails_signal, Bool.not_eq_true'] at h
      refine ⟨[], ?_⟩
      simp [fetch_loop, get_openai_cost_and_usage, h]
  | httpError e body =>
    cases body with
    | none => simp [fails_signal] at h
    | some b => exact ⟨[.httpErrorLine e, .responseContent b], rfl⟩
  | requestError e => exact ⟨[.requestErrorLine e], rfl⟩

/-- Consuming a block of truthy pages that all announce `has_more`: the loop
aggregates them in order and continues with the remaining responses, the
cursor having followed each page's `next_page`. -/
lemma fetch_loop_pages_outcome (key : String) (st : Int) (init : List Json) :
    ∀ (c : Json) (tu : TotalUsage) (rest : List HttpResult),
    (∀ p ∈ init, truthy p = true ∧ truthy (p.getD "has_more" .null) = true) →
    (fetch_loop key st (init.map page_resp ++ rest) c tu).outcome =
      (fetch_loop key st rest (cursor_after c init) (run_pages tu init)).outcome := by
  induction init with
  | nil => intro c tu rest _; simp [cursor_after, run_pages]
  | cons p t ih =>
    intro c tu rest h
    have hp := h p (List.mem_cons_self _ _)
    simp only [List.map_cons, List.cons_append,
      fetch_loop_good_step key st p _ c tu hp.1 hp.2]
    exact ih _ _ rest (fun q hq => h q (List.mem_cons_of_mem _ hq))

/-- When the loop breaks normally or on a failure signal, the summary badges
of the final accumulator are written to the two files. -/
lemma fetch_all_files (key : String) (st : Int) (responses : List HttpResult)
    (tu : TotalUsage)
    (h : (fetch_loop key st responses .null ⟨0, []⟩).outcome = .done tu) :
    (fetch_all_cost_data key st responses).files =
      some (total_cost_badge tu, total_entry_badge tu) := by
  simp [fetch_all_cost_data, h]

lemma fmt6_zero : fmt6 0 = "0.000000" := by
  have h : |(0 : ℚ)| * 1000000 = 0 := by simp
  simp only [fmt6, h, round_zero, Int.toNat_zero]
  decide

/-! ## Concrete inputs used by witnesses and counterexamples -/

/-- A result record with no `amount` object at all. -/
def sample_result : Json := .obj [("line_item", .str "x")]

/-- A page whose single bucket contains only `sample_result`. -/
def sample_page : Json :=
  .obj [("data", .arr [.obj [("results", .arr [sample_result])]])]

/-- A page whose `data` field is present but an empty list. -/
def empty_data_page : Json := .obj [("data", .arr [])]

/-- The single result of the scenario's first page, worth `1.234567` USD. -/
def scenario_page1_result : Json := .obj [
  ("amount", .obj [("value", .num (1234567 / 1000000)), ("currency", .str "USD")]),
  ("line_item", .str "x"), ("project_id", .str "p1")]

/-- The single result of the scenario's second page, worth `2.0`. -/
def scenario_page2_result : Json := .obj [
  ("amount", .obj [("value", .num 2), ("currency", .str "USD")])]

/-- First page of the spec's end-to-end scenario: one result worth
`1.234567` USD, `has_more` true, cursor `"p2"`. -/
def scenario_page1 : Json := .obj [
  ("data", .arr [.obj [
    ("start_time", .num 0), ("end_time", .num 0),
    ("results", .arr [scenario_page1_result])]]),
  ("has_more", .bool true), ("next_page", .str "p2")]

/-- Second page of the scenario: one result worth `2.0`, `has_more` false. -/
def scenario_page2 : Json := .obj [
  ("data", .arr [.obj [
    ("start_time", .num 0), ("end_time", .num 0),
    ("results", .arr [scenario_page2_result])]]),
  ("has_more", .bool false)]

/-! ## The claims -/

/-- C1: at every point during a run, the accumulator's `total_cost` equals
the sum of `amount.value` over every element of its `entries` list, and the
length of `entries` is monotonically non-decreasing across every call to the
aggregator `process_and_display_cost_info`.  Formally: every aggregator call
preserves the sum invariant and never shortens `entries`; since the run
starts from the zeroed accumulator (which satisfies the invariant) and only
aggregator calls touch it, the invariant holds at every point. -/
theorem claim1_accumulator_invariant (ci : Option Json) (tu : TotalUsage)
    (h : tu.total_cost = entries_sum tu.entries) :
    ((process_and_display_cost_info ci tu).1).total_cost =
      entries_sum ((process_and_display_cost_info ci tu).1).entries ∧
    tu.entries.length ≤ ((process_and_display_cost_info ci tu).1).entries.length := by
  rw [process_fst]
  constructor
  · simp [entries_sum, h]
  · simp

theorem claim1_witness :
    (⟨0, []⟩ : TotalUsage).total_cost = entries_sum (⟨0, []⟩ : TotalUsage).entries ∧
    (((process_and_display_cost_info (some scenario_page2) ⟨0, []⟩).1).total_cost =
        entries_sum ((process_and_display_cost_info (some scenario_page2) ⟨0, []⟩).1).entries ∧
      (⟨0, []⟩ : TotalUsage).entries.length ≤
        ((process_and_display_cost_info (some scenario_page2) ⟨0, []⟩).1).entries.length) :=
  ⟨by simp [entries_sum],
    claim1_accumulator_invariant (some scenario_page2) ⟨0, []⟩ (by simp [entries_sum])⟩

/-- C2, counterexample: on a non-2xx HTTP response whose body is not JSON,
the requester does not return `None` — the `e.response.json()` call inside
the `except` handler raises a `JSONDecodeError` that escapes uncaught (an
exception raised inside an `except` block is not caught by the sibling
handler), refuting "it never raises an uncaught fault to its caller". -/
theorem claim2_counterexample :
    get_openai_cost_and_usage "key" 0 .null (.httpError "500 Server Error" none) =
      .raises "JSONDecodeError" [.httpErrorLine "500 Server Error"] := rfl

/-- C2, amended: on every transport-level failure, and on every non-2xx HTTP
response whose body parses as JSON, the requester prints the error (with the
server's JSON error body where it exists) and returns `None`; but on a
non-2xx response whose body does not parse as JSON it prints the HTTP error
and then raises an uncaught `JSONDecodeError`. -/
theorem claim2_amended (api_key : String) (st : Int) (np : Json) (e : String)
    (body : Json) :
    get_openai_cost_and_usage api_key st np (.requestError e) =
      .returns none [.requestErrorLine e] ∧
    get_openai_cost_and_usage api_key st np (.httpError e (some body)) =
      .returns none [.httpErrorLine e, .responseContent body] ∧
    get_openai_cost_and_usage api_key st np (.httpError e none) =
      .raises "JSONDecodeError" [.httpErrorLine e] :=
  ⟨rfl, rfl, rfl⟩

/-- C3, counterexample: on a page whose `data` field is present but an empty
list, the aggregator leaves the accumulator unchanged but prints nothing at
all — in particular no "no valid data" notice, because the guard
`if not cost_info or "data" not in cost_info` is not taken when the key
exists.  This refutes the claim that the notice is printed for empty
`data`. -/
theorem claim3_counterexample :
    process_and_display_cost_info (some empty_data_page) ⟨0, []⟩ = (⟨0, []⟩, []) ∧
    Output.noValidData ∉ (process_and_display_cost_info (some empty_data_page) ⟨0, []⟩).2 := by
  refine ⟨rfl, ?_⟩
  intro hmem
  rw [show (process_and_display_cost_info (some empty_data_page) ⟨0, []⟩).2 = [] from rfl]
    at hmem
  exact List.not_mem_nil _ hmem

/-- C3, amended: the aggregator leaves the accumulator unchanged both when
`data` is missing and when it is an empty list, but the "no valid data"
notice is printed only when the page is falsy or the `data` key is missing
(and when the requester returned `None`); a present-but-empty `data` list
prints no notice. -/
theorem claim3_amended (ci : Json) (tu : TotalUsage) :
    process_and_display_cost_info none tu = (tu, [.noValidData]) ∧
    (truthy ci = false → process_and_display_cost_info (some ci) tu = (tu, [.noValidData])) ∧
    (hasKey ci "data" = false →
      process_and_display_cost_info (some ci) tu = (tu, [.noValidData])) ∧
    (truthy ci = true → hasKey ci "data" = true → ci.getD "data" (.arr []) = .arr [] →
      (process_and_display_cost_info (some ci) tu).1 = tu ∧
      Output.noValidData ∉ (process_and_display_cost_info (some ci) tu).2) := by
  refine ⟨rfl, ?_, ?_, ?_⟩
  · intro h
    simp [process_and_display_cost_info, h]
  · intro h
    simp [process_and_display_cost_info, h]
  · intro h1 h2 h3
    simp only [process_and_display_cost_info, h1, h2, Bool.not_true, Bool.or_self,
      Bool.false_eq_true, if_false, h3, asArr, process_buckets, List.nil_append]
    constructor
    · trivial
    · by_cases hmore : truthy (ci.getD "has_more" (.bool false)) <;> simp [hmore]

theorem claim3_witness :
    truthy empty_data_page = true ∧ hasKey empty_data_page "data" = true ∧
    empty_data_page.getD "data" (.arr []) = .arr [] ∧
    ((process_and_display_cost_info (some empty_data_page) ⟨5, [.null]⟩).1 = ⟨5, [.null]⟩ ∧
      Output.noValidData ∉
        (process_and_display_cost_info (some empty_data_page) ⟨5, [.null]⟩).2) :=
  ⟨rfl, rfl, rfl, (claim3_amended empty_data_page ⟨5, [.null]⟩).2.2.2 rfl rfl rfl⟩

/-- A result record with no `amount` object, or whose `amount` object has no
`value` field — the records C9 is about. -/
def missing_amount_value (r : Json) : Prop :=
  hasKey r "amount" = false ∨
  ∃ fields, r.getD "amount" (.obj []) = .obj fields ∧ hasKey (.obj fields) "value" = false

lemma result_amount_of_missing {r : Json} (h : missing_amount_value r) :
    result_amount r = 0 := by
  rcases h with h | ⟨fields, heq, hk⟩
  · rw [result_amount, getD_of_hasKey_eq_false h]
    rfl
  · rw [result_amount, heq, getD_of_hasKey_eq_false hk]
    rfl

/-- C9: a result that lacks an `amount` object or an `amount.value` field is
still appended to `entries` while contributing `0` to `total_cost` (the
`.get` defaults make the contribution `0`); so `entries` can contain such
records, and for any page carrying the record the aggregator puts it into
`entries`. -/
theorem claim9_missing_amount_still_appended (tu tu' : TotalUsage) (r p : Json)
    (h : missing_amount_value r) (hp : truthy p = true) (hr : r ∈ page_results p) :
    result_amount r = 0 ∧
    process_result tu r = ⟨tu.total_cost, tu.entries ++ [r]⟩ ∧
    r ∈ ((process_and_display_cost_info (some p) tu').1).entries := by
  have h0 := result_amount_of_missing h
  refine ⟨h0, ?_, ?_⟩
  · simp [process_result, h0]
  · rw [process_fst, observed_results_of_truthy hp]
    exact List.mem_append_right _ hr

theorem claim9_witness :
    result_amount sample_result = 0 ∧
    process_result ⟨3, []⟩ sample_result = ⟨3, [sample_result]⟩ ∧
    sample_result ∈
      ((process_and_display_cost_info (some sample_page) ⟨0, []⟩).1).entries :=
  claim9_missing_amount_still_appended ⟨3, []⟩ ⟨0, []⟩ sample_result sample_page
    (Or.inl rfl) rfl
    (by rw [show page_results sample_page = [sample_result] from rfl]
        exact List.mem_singleton_self _)

lemma run_pages_append (a b : List Json) : ∀ tu : TotalUsage,
    run_pages tu (a ++ b) = run_pages (run_pages tu a) b := by
  induction a with
  | nil => intro tu; rfl
  | cons p t ih =>
    intro tu
    rw [List.cons_append]
    simp only [run_pages]
    exact ih _

lemma length_flatMap_eq_sum (l : List Json) (f : Json → List Json) :
    (l.flatMap f).length = (l.map (fun x => (f x).length)).sum := by
  induction l with
  | nil => rfl
  | cons a t ih => simp [ih]

/-- C4: a fetch returning the failure signal aborts the pagination loop at
that page — no retry, no further request, the accumulator kept as it was —
and the summary files are still written from the partial accumulation; when
the very first fetch fails, both files are written with total cost
`$0.000000 USD` and entry count `0`, after a single request. -/
theorem claim4_failure_aborts_with_partial_files (key : String) (st : Int)
    (c : Json) (tu : TotalUsage) (resp : HttpResult) (rest : List HttpResult)
    (h : fails_signal resp = true) :
    (∃ out1, fetch_loop key st (resp :: rest) c tu =
      ⟨.done tu, out1 ++ [.fetchFailed], [cost_url st c]⟩) ∧
    (fetch_all_cost_data key st (resp :: rest)).files =
      some (⟨1, "Total Cost for Last 30 Days", "$0.000000 USD", "blue"⟩,
            ⟨1, "Total Entries for Last 30 Days", "0", "yellow"⟩) ∧
    (fetch_all_cost_data key st (resp :: rest)).urls = [cost_url st .null] := by
  obtain ⟨out0, heq0⟩ := fetch_loop_fail_step key st resp rest .null ⟨0, []⟩ h
  refine ⟨fetch_loop_fail_step key st resp rest c tu h, ?_, ?_⟩
  · rw [fetch_all_files key st _ ⟨0, []⟩ (by rw [heq0])]
    simp only [total_cost_badge, total_entry_badge, fmt6_zero]
    rfl
  · simp [fetch_all_cost_data, heq0]

theorem claim4_witness :
    (∃ out1, fetch_loop "key" 0 [HttpResult.requestError "boom"] .null ⟨0, []⟩ =
      ⟨.done ⟨0, []⟩, out1 ++ [.fetchFailed], [cost_url 0 .null]⟩) ∧
    (fetch_all_cost_data "key" 0 [HttpResult.requestError "boom"]).files =
      some (⟨1, "Total Cost for Last 30 Days", "$0.000000 USD", "blue"⟩,
            ⟨1, "Total Entries for Last 30 Days", "0", "yellow"⟩) ∧
    (fetch_all_cost_data "key" 0 [HttpResult.requestError "boom"]).urls =
      [cost_url 0 .null] :=
  claim4_failure_aborts_with_partial_files "key" 0 .null ⟨0, []⟩
    (.requestError "boom") [] rfl

/-- C5: after a page with truthy `has_more` and `next_page = s` (a non-empty
string), the immediately following request is issued at the URL that carries
`page=s` in addition to `start_time`. -/
theorem claim5_cursor_in_next_url (key : String) (st : Int) (c : Json)
    (tu : TotalUsage) (p : Json) (s : String) (resp2 : HttpResult)
    (rest : List HttpResult)
    (hp : truthy p = true) (hm : truthy (p.getD "has_more" .null) = true)
    (hs : p.getD "next_page" .null = .str s) (hne : s ≠ "") :
    (∃ tail, (fetch_loop key st (page_resp p :: resp2 :: rest) c tu).urls =
      cost_url st c :: cost_url st (.str s) :: tail) ∧
    cost_url st (.str s) =
      "https://api.openai.com/v1/organization/costs?start_time=" ++ toString st
        ++ "&page=" ++ s := by
  constructor
  · rw [fetch_loop_good_step key st p _ c tu hp hm, hs]
    obtain ⟨tail, htail⟩ := fetch_loop_cons_urls key st resp2 rest (.str s)
      (process_and_display_cost_info (some p) tu).1
    exact ⟨tail, by rw [htail]⟩
  · simp only [cost_url, truthy, pyStr, hne, decide_not]
    rw [if_pos (by simp [hne])]

theorem claim5_witness :
    (∃ tail, (fetch_loop "key" 0
        (page_resp scenario_page1 :: page_resp scenario_page2 :: []) .null ⟨0, []⟩).urls =
      cost_url 0 .null :: cost_url 0 (.str "p2") :: tail) ∧
    cost_url 0 (.str "p2") =
      "https://api.openai.com/v1/organization/costs?start_time=" ++ toString (0 : Int)
        ++ "&page=" ++ "p2" :=
  claim5_cursor_in_next_url "key" 0 .null ⟨0, []⟩ scenario_page1 "p2"
    (page_resp scenario_page2) [] rfl rfl rfl (by decide)

/-- C6: for a finite sequence of successfully fetched truthy pages whose
last page has falsy `has_more` (all earlier ones truthy `has_more`), the
pagination loop terminates, and the final `entries` length equals the total
number of results across all buckets of all pages. -/
theorem claim6_terminates_with_all_results (key : String) (st : Int)
    (init : List Json) (last : Json)
    (h1 : ∀ p ∈ init, truthy p = true ∧ truthy (p.getD "has_more" .null) = true)
    (h2 : truthy last = true)
    (h3 : truthy (last.getD "has_more" .null) = false) :
    (fetch_loop key st ((init ++ [last]).map page_resp) .null ⟨0, []⟩).outcome =
      .done (run_pages ⟨0, []⟩ (init ++ [last])) ∧
    (run_pages ⟨0, []⟩ (init ++ [last])).entries.length =
      ((init ++ [last]).map (fun p => (page_results p).length)).sum := by
  constructor
  · rw [List.map_append, fetch_loop_pages_outcome key st init .null ⟨0, []⟩ _ h1,
      List.map_singleton,
      fetch_loop_last_step key st last [] (cursor_after .null init) _ h2 h3,
      run_pages_append init [last]]
    rfl
  · have hall : ∀ p ∈ init ++ [last], truthy p = true := by
      intro p hp
      rcases List.mem_append.mp hp with hp | hp
      · exact (h1 p hp).1
      · rw [List.mem_singleton.mp hp]
        exact h2
    rw [run_pages_spec _ _ hall]
    simp only [List.nil_append, length_flatMap_eq_sum]

theorem claim6_witness :
    (fetch_loop "key" 0 (([scenario_page1] ++ [scenario_page2]).map page_resp)
        .null ⟨0, []⟩).outcome =
      .done (run_pages ⟨0, []⟩ ([scenario_page1] ++ [scenario_page2])) ∧
    (run_pages ⟨0, []⟩ ([scenario_page1] ++ [scenario_page2])).entries.length =
      (([scenario_page1] ++ [scenario_page2]).map
        (fun p => (page_results p).length)).sum :=
  claim6_terminates_with_all_results "key" 0 [scenario_page1] scenario_page2
    (by intro p hp
        rw [List.mem_singleton.mp hp]
        exact ⟨rfl, rfl⟩)
    rfl rfl

/-- C10: a successfully fetched truthy page with truthy `has_more` but no
`next_page` key resets the cursor to `None`, and the immediately following
request is issued at the bare URL with only `start_time` — identical to the
initial request — rather than the loop stopping or erroring. -/
theorem claim10_absent_cursor_resets (key : String) (st : Int) (c : Json)
    (tu : TotalUsage) (p : Json) (resp2 : HttpResult) (rest : List HttpResult)
    (hp : truthy p = true) (hm : truthy (p.getD "has_more" .null) = true)
    (hnk : hasKey p "next_page" = false) :
    p.getD "next_page" .null = .null ∧
    (∃ tail, (fetch_loop key st (page_resp p :: resp2 :: rest) c tu).urls =
      cost_url st c :: cost_url st .null :: tail) ∧
    cost_url st .null =
      "https://api.openai.com/v1/organization/costs?start_time=" ++ toString st := by
  have hd := getD_of_hasKey_eq_false hnk Json.null
  refine ⟨hd, ?_, rfl⟩
  rw [fetch_loop_good_step key st p _ c tu hp hm, hd]
  obtain ⟨tail, htail⟩ := fetch_loop_cons_urls key st resp2 rest .null
    (process_and_display_cost_info (some p) tu).1
  exact ⟨tail, by rw [htail]⟩

/-- A page with truthy `has_more` and no `next_page` key, for the C10
witness. -/
def no_cursor_page : Json := .obj [("data", .arr []), ("has_more", .bool true)]

theorem claim10_witness :
    no_cursor_page.getD "next_page" .null = .null ∧
    (∃ tail, (fetch_loop "key" 0
        (page_resp no_cursor_page :: HttpResult.requestError "boom" :: []) (.str "old")
        ⟨0, []⟩).urls =
      cost_url 0 (.str "old") :: cost_url 0 .null :: tail) ∧
    cost_url 0 .null =
      "https://api.openai.com/v1/organization/costs?start_time=" ++ toString (0 : Int) :=
  claim10_absent_cursor_resets "key" 0 (.str "old") ⟨0, []⟩ no_cursor_page
    (.requestError "boom") [] rfl rfl rfl

lemma entries_sum_singleton (r : Json) : entries_sum [r] = result_amount r := by
  simp [entries_sum]

lemma fmt6_scenario : fmt6 ((0 + 1234567 / 1000000) + 2 : ℚ) = "3.234567" := by
  have hval : ((0 + 1234567 / 1000000) + 2 : ℚ) = 3234567 / 1000000 := by norm_num
  rw [hval]
  have habs : |(3234567 / 1000000 : ℚ)| = 3234567 / 1000000 := abs_of_nonneg (by norm_num)
  have hround : round ((3234567 / 1000000 : ℚ) * 1000000) = 3234567 := by
    rw [show (3234567 / 1000000 : ℚ) * 1000000 = 3234567 by norm_num]
    norm_num
  have hneg : ¬ ((3234567 / 1000000 : ℚ) < 0) := by norm_num
  simp only [fmt6, habs, hround, hneg, if_false]
  decide

/-- C7: whenever the pagination loop reaches its end, the program writes
`TotalCost.json` with schema version 1, label "Total Cost for Last 30 Days",
the total formatted to six decimals inside `$… USD`, color blue, and
`TotalEntry.json` with schema version 1, label "Total Entries for Last 30
Days", the entry count, color yellow; on the spec's two-page scenario
(results worth 1.234567 and 2.0) the messages are exactly "$3.234567 USD"
and "2". -/
theorem claim7_summary_files :
    (∀ (key : String) (st : Int) (responses : List HttpResult) (tu : TotalUsage),
      (fetch_loop key st responses .null ⟨0, []⟩).outcome = .done tu →
      (fetch_all_cost_data key st responses).files =
        some (⟨1, "Total Cost for Last 30 Days",
                "$" ++ fmt6 tu.total_cost ++ " USD", "blue"⟩,
              ⟨1, "Total Entries for Last 30 Days",
                toString tu.entries.length, "yellow"⟩)) ∧
    (fetch_all_cost_data "key" 0
        [page_resp scenario_page1, page_resp scenario_page2]).files =
      some (⟨1, "Total Cost for Last 30 Days", "$3.234567 USD", "blue"⟩,
            ⟨1, "Total Entries for Last 30 Days", "2", "yellow"⟩) := by
  constructor
  · intro key st responses tu h
    rw [fetch_all_files key st responses tu h]
    rfl
  · have hstep : (fetch_loop "key" 0
        [page_resp scenario_page1, page_resp scenario_page2] .null ⟨0, []⟩).outcome =
        .done ((process_and_display_cost_info (some scenario_page2)
          ((process_and_display_cost_info (some scenario_page1) ⟨0, []⟩).1)).1) := by
      rw [show ([page_resp scenario_page1, page_resp scenario_page2] : List HttpResult) =
          page_resp scenario_page1 :: [page_resp scenario_page2] from rfl,
        fetch_loop_good_step "key" 0 scenario_page1 [page_resp scenario_page2]
          .null ⟨0, []⟩ rfl rfl]
      dsimp only
      rw [show scenario_page1.getD "next_page" Json.null = .str "p2" from rfl,
        fetch_loop_last_step "key" 0 scenario_page2 [] (.str "p2") _ rfl rfl]
    rw [fetch_all_files "key" 0 _ _ hstep,
      process_fst (some scenario_page2), process_fst (some scenario_page1),
      show observed_results (some scenario_page1) = [scenario_page1_result] from rfl,
      show observed_results (some scenario_page2) = [scenario_page2_result] from rfl]
    simp only [total_cost_badge, total_entry_badge, entries_sum_singleton,
      show result_amount scenario_page1_result = 1234567 / 1000000 from rfl,
      show result_amount scenario_page2_result = 2 from rfl]
    rw [fmt6_scenario]
    rfl

theorem claim7_witness :
    (fetch_loop "key" 0 [page_resp scenario_page2] Json.null ⟨0, []⟩).outcome =
      .done ((process_and_display_cost_info (some scenario_page2) ⟨0, []⟩).1) ∧
    (fetch_all_cost_data "key" 0 [page_resp scenario_page2]).files =
      some (⟨1, "Total Cost for Last 30 Days",
              "$" ++ fmt6 ((process_and_display_cost_info (some scenario_page2)
                ⟨0, []⟩).1).total_cost ++ " USD", "blue"⟩,
            ⟨1, "Total Entries for Last 30 Days",
              toString ((process_and_display_cost_info (some scenario_page2)
                ⟨0, []⟩).1).entries.length, "yellow"⟩) := by
  have hstep : (fetch_loop "key" 0 [page_resp scenario_page2] Json.null ⟨0, []⟩).outcome =
      .done ((process_and_display_cost_info (some scenario_page2) ⟨0, []⟩).1) := by
    rw [fetch_loop_last_step "key" 0 scenario_page2 [] .null ⟨0, []⟩ rfl rfl]
  exact ⟨hstep, claim7_summary_files.1 "key" 0 _ _ hstep⟩

/-- C8: when the API key environment variable is unset or holds the
placeholder value, the program prints the guidance line and exits: no
request is issued (empty URL trace) and neither output file is written. -/
theorem claim8_placeholder_key_early_exit (env_key : Option String) (ct : Int)
    (responses : List HttpResult)
    (h : env_key = none ∨ env_key = some placeholder_key) :
    main_program env_key ct responses = ⟨[.guidance], [], none, none⟩ := by
  rcases h with h | h <;> subst h <;> rfl

theorem claim8_witness :
    main_program none 0 [HttpResult.success (some scenario_page2)] =
      ⟨[.guidance], [], none, none⟩ :=
  claim8_placeholder_key_early_exit none 0 [HttpResult.success (some scenario_page2)]
    (Or.inl rfl)
